import Mathlib

set_option maxRecDepth 100000
set_option maxHeartbeats 2000000

/-!
Formal model of the DSA tracker batch job (src/automate_tracker.py).
The functions below are shallow embeddings of the Python code: the external
collaborators (object store, spreadsheet sink, name-resolution service,
system clock) are passed in as explicit parameters or oracles, and the
pure logic (line splitting, date parsing and arithmetic, response cleaning,
row construction, archive naming, control flow of the batch loop) is
translated directly from the source. Textual modelling restrictions: line
breaking and whitespace stripping are modelled over the standard break and
space characters Python recognises, with digits restricted to ASCII.
-/

namespace DsaTracker

/-- Whitespace characters removed by the Python str.strip call with no
argument, over the character range the repository input uses. -/
def pySpace (c : Char) : Bool :=
  c = ' ' || c = '\t' || c = '\n' || c = '\r' || c = '\x0b' || c = '\x0c'

/-- Strip leading and trailing whitespace from a character list. -/
def pyStripL (s : List Char) : List Char :=
  ((s.dropWhile pySpace).reverse.dropWhile pySpace).reverse

/-- Model of str.strip with no argument. -/
def pyStrip (s : String) : String :=
  String.mk (pyStripL s.toList)

/-- Line-break characters recognised by the Python str.splitlines call. -/
def lineBreakChar (c : Char) : Bool :=
  c = '\n' || c = '\r' || c = '\x0b' || c = '\x0c' || c = '\x1c' ||
    c = '\x1d' || c = '\x1e' || c = '\x85' || c = '\u2028' || c = '\u2029'

/-- Split a character list at line breaks, treating a carriage return
followed by a line feed as a single break. A trailing break yields a final
empty line here; the caller filters blank lines, so this is observationally
identical to the Python splitlines behaviour for this program. -/
def splitLinesAux : List Char → List Char → List (List Char)
  | [], acc => [acc.reverse]
  | '\r' :: '\n' :: rest, acc => acc.reverse :: splitLinesAux rest []
  | c :: rest, acc =>
    if lineBreakChar c then acc.reverse :: splitLinesAux rest []
    else splitLinesAux rest (c :: acc)

/-- Model of str.splitlines. -/
def pySplitLines (s : String) : List String :=
  (splitLinesAux s.toList []).map String.mk

/-- One left-to-right pass removing non-overlapping occurrences of a
pattern, with fuel for termination; the fuel is always instantiated with
the length of the scanned list, which suffices for a nonempty pattern. -/
def removeAllFuel (pat : List Char) : Nat → List Char → List Char
  | _, [] => []
  | 0, s => s
  | fuel + 1, c :: rest =>
    if pat.isPrefixOf (c :: rest) then
      removeAllFuel pat fuel ((c :: rest).drop pat.length)
    else
      c :: removeAllFuel pat fuel rest

/-- Model of the Python str.replace call with an empty replacement string:
every non-overlapping occurrence of the pattern is deleted, scanning left
to right. -/
def pyRemove (pat : String) (s : String) : String :=
  String.mk (removeAllFuel pat.toList s.toList.length s.toList)

/-- ASCII digit test. -/
def isAsciiDigit (c : Char) : Bool :=
  '0' ≤ c && c ≤ '9'

/-- Numeric value of a list of ASCII digits. -/
def digitsVal (s : List Char) : Nat :=
  s.foldl (fun acc c => acc * 10 + (c.toNat - '0'.toNat)) 0

/-- Decimal rendering of a natural number, zero-padded on the left to the
given width. -/
def padNum (w n : Nat) : String :=
  String.mk (List.replicate (w - (toString n).length) '0') ++ toString n

/-- Gregorian leap-year rule, as used by the Python datetime module. -/
def isLeap (y : Nat) : Bool :=
  (y % 4 == 0 && y % 100 != 0) || y % 400 == 0

/-- Number of days in a month of a given year. -/
def daysInMonth (y m : Nat) : Nat :=
  if m = 2 then (if isLeap y then 29 else 28)
  else if m = 4 || m = 6 || m = 9 || m = 11 then 30
  else 31

/-- Calendar date, mirroring the Python datetime.date value. -/
structure Date where
  year : Nat
  month : Nat
  day : Nat
  deriving DecidableEq, Repr

/-- Month and day are in calendar range for the given year. -/
def Date.validYMD (d : Date) : Prop :=
  1 ≤ d.month ∧ d.month ≤ 12 ∧ 1 ≤ d.day ∧ d.day ≤ daysInMonth d.year d.month

instance (d : Date) : Decidable d.validYMD := by
  unfold Date.validYMD; exact inferInstance

/-- Date representable by the Python datetime.date type: the year must lie
between 1 and 9999 inclusive. -/
def Date.valid (d : Date) : Prop :=
  1 ≤ d.year ∧ d.year ≤ 9999 ∧ d.validYMD

instance (d : Date) : Decidable d.valid := by
  unfold Date.valid; exact inferInstance

/-- Calendar successor of a date. -/
def nextDay (d : Date) : Date :=
  if d.day < daysInMonth d.year d.month then ⟨d.year, d.month, d.day + 1⟩
  else if d.month < 12 then ⟨d.year, d.month + 1, 1⟩
  else ⟨d.year + 1, 1, 1⟩

/-- Iterated calendar successor: the date n days after d, ignoring the
upper bound of the representable range. -/
def addDaysN (d : Date) : Nat → Date
  | 0 => d
  | n + 1 => nextDay (addDaysN d n)

/-- Model of the Python timedelta addition on dates: the result is defined
only while it stays within the representable range, which ends at the last
day of year 9999; beyond it the Python operation raises OverflowError. -/
def addDays (d : Date) (n : Nat) : Option Date :=
  if (addDaysN d n).year ≤ 9999 then some (addDaysN d n) else none

/-- Strict lexicographic order on dates, which on valid dates coincides
with chronological order. -/
def Date.lt (a b : Date) : Prop :=
  a.year < b.year ∨
    (a.year = b.year ∧
      (a.month < b.month ∨ (a.month = b.month ∧ a.day < b.day)))

instance (a b : Date) : Decidable (Date.lt a b) := by
  unfold Date.lt; exact inferInstance

/-- Model of strftime with the year-month-day format used for sheet rows,
zero-padding the year to four digits. -/
def formatISO (d : Date) : String :=
  padNum 4 d.year ++ "-" ++ padNum 2 d.month ++ "-" ++ padNum 2 d.day

/-- Parse one numeric strptime field: all characters must be ASCII digits,
the length and the value must lie in the given ranges. -/
def parseField (minLen maxLen lo hi : Nat) (s : List Char) : Option Nat :=
  if s.all isAsciiDigit && minLen ≤ s.length && s.length ≤ maxLen &&
      lo ≤ digitsVal s && digitsVal s ≤ hi then
    some (digitsVal s)
  else none

/-- Model of datetime.strptime with the day-month-year format followed by
the date constructor, as in the source at line 152: the day field accepts
one or two digits with value 1 to 31, the month field one or two digits
with value 1 to 12, the year field exactly four digits with value at least
1, the separators are hyphens, the whole string must be consumed, and the
day must exist in the given month and year; any violation raises
ValueError in Python, modelled as none. -/
def parseDMY (s : String) : Option Date :=
  match s.toList.splitOn '-' with
  | [ds, ms, ys] =>
    match parseField 1 2 1 31 ds, parseField 1 2 1 12 ms,
        parseField 4 4 1 9999 ys with
    | some dv, some mv, some yv =>
      if dv ≤ daysInMonth yv mv then some ⟨yv, mv, dv⟩ else none
    | _, _, _ => none
  | _ => none

/-- One part of a candidate in the service response; the text key may be
absent. -/
structure RespPart where
  text : Option String
  deriving DecidableEq

/-- Content object of a candidate; the parts key may be absent. -/
structure RespContent where
  parts : Option (List RespPart)
  deriving DecidableEq

/-- One candidate of the service response; the content key may be absent. -/
structure RespCandidate where
  content : Option RespContent
  deriving DecidableEq

/-- Parsed JSON body of the name-resolution service response; the
candidates key may be absent. -/
structure GeminiResponse where
  candidates : Option (List RespCandidate)
  deriving DecidableEq

/-- Outcome of the single HTTP request of get_problem_name_from_gemini:
a transport or HTTP-status failure, a body that is not valid JSON, a
parsed JSON body, or any other unexpected exception. -/
inductive ApiResult where
  | transportError
  | jsonDecodeError
  | ok (resp : GeminiResponse)
  | otherError
  deriving DecidableEq

/-- Sentinel returned on a transport failure or a non-JSON body, source
lines 95 to 100. -/
def FETCH_ERROR_SENTINEL : String := "Error Fetching Name (via Gemini)"

/-- Sentinel returned when the response JSON lacks the expected completion
shape, source line 93. -/
def UNKNOWN_PROBLEM_SENTINEL : String := "Unknown Problem (via Gemini)"

/-- Sentinel returned on any other unexpected failure, source line 103. -/
def GENERIC_ERROR_SENTINEL : String := "Error (via Gemini)"

/-- Cleaning applied to the completion text at source lines 85 to 87:
strip, delete every backtick fence marker, delete every occurrence of the
lowercase word json, delete every occurrence of the label, strip again. -/
def cleanName (s : String) : String :=
  pyStrip (pyRemove "Problem Name:" (pyRemove "json" (pyRemove "```" (pyStrip s))))

/-- Navigation of the response shape checked by the condition at source
lines 80 to 83: first candidate, its content, first part. -/
def firstPart (r : GeminiResponse) : Option RespPart :=
  match r.candidates with
  | some (c :: _) =>
    match c.content with
    | some ct =>
      match ct.parts with
      | some (p :: _) => some p
      | _ => none
    | none => none
  | _ => none

/-- Model of get_problem_name_from_gemini, source lines 73 to 103, as a
function of the request outcome. A missing text key raises KeyError in
Python, caught by the generic handler. -/
def getProblemName : ApiResult → String
  | .transportError => FETCH_ERROR_SENTINEL
  | .jsonDecodeError => FETCH_ERROR_SENTINEL
  | .otherError => GENERIC_ERROR_SENTINEL
  | .ok resp =>
    match firstPart resp with
    | none => UNKNOWN_PROBLEM_SENTINEL
    | some p =>
      match p.text with
      | some t => cleanName t
      | none => GENERIC_ERROR_SENTINEL

/-- Completion text of a request outcome, when the response carries one. -/
def completionText (r : ApiResult) : Option String :=
  match r with
  | .ok resp => (firstPart resp).bind RespPart.text
  | _ => none

/-- One input triple: link, topic, date string, in the order the lines
appear in the input file. -/
structure Triple where
  link : String
  topic : String
  dateStr : String
  deriving DecidableEq

/-- Revision offsets in days, source lines 162 to 166: cumulative sums of
1, 3, 7, 15 and 30. -/
def REV_OFFSETS : List Nat := [1, 4, 11, 26, 56]

/-- Model of the five revision-date computations at source lines 162 to
166; any of the five additions overflowing the representable date range
raises OverflowError in Python, modelled as none. -/
def scheduleDates (d : Date) : Option (List Date) :=
  match addDays d 1, addDays d 4, addDays d 11, addDays d 26, addDays d 56 with
  | some r1, some r2, some r3, some r4, some r5 => some [r1, r2, r3, r4, r5]
  | _, _, _, _, _ => none

/-- Row constructed at source lines 168 to 178. -/
def mkRow (topic name link : String) (d : Date) (revs : List Date) : List String :=
  [topic, name, link, formatISO d] ++ revs.map formatISO

/-- Row a triple contributes under a given name resolver: none when the
date string does not parse or when scheduling overflows. -/
def rowFor (resolve : String → String) (t : Triple) : Option (List String) :=
  match parseDMY t.dateStr with
  | none => none
  | some d =>
    match scheduleDates d with
    | some revs => some (mkRow t.topic (resolve t.link) t.link d revs)
    | none => none

/-- Result of the per-triple loop at source lines 142 to 185: the rows
passed to append_row in order, the rows whose append succeeded, and
whether an uncaught exception aborted the loop. -/
structure PipeResult where
  submitted : List (List String)
  appended : List (List String)
  aborted : Bool
  deriving DecidableEq

/-- Model of the loop at source lines 142 to 185. A date-parse failure
skips the triple and continues. A scheduling overflow raises an exception
that is only caught by the handler wrapping the whole function, so it
discards the rest of the loop and suppresses archival. The sink oracle
appendOk says whether the k-th append call succeeds; a failed append is
logged and the loop continues. -/
def runTriples (resolve : String → String) (appendOk : Nat → Bool) :
    List Triple → Nat → PipeResult
  | [], _ => ⟨[], [], false⟩
  | t :: rest, k =>
    match parseDMY t.dateStr with
    | none => runTriples resolve appendOk rest k
    | some d =>
      match scheduleDates d with
      | none => ⟨[], [], true⟩
      | some revs =>
        let row := mkRow t.topic (resolve t.link) t.link d revs
        let r := runTriples resolve appendOk rest (k + 1)
        ⟨row :: r.submitted,
          if appendOk k then row :: r.appended else r.appended,
          r.aborted⟩

/-- Selection of the elements whose position, counted from k, is accepted
by the oracle; describes which submitted rows were actually appended. -/
def filterByIdx (ok : Nat → Bool) : Nat → List α → List α
  | _, [] => []
  | k, a :: as =>
    if ok k then a :: filterByIdx ok (k + 1) as
    else filterByIdx ok (k + 1) as

/-- Grouping of the non-blank lines into consecutive triples, source lines
142 to 146. -/
def groupTriples : List String → List Triple
  | a :: b :: c :: rest => ⟨a, b, c⟩ :: groupTriples rest
  | _ => []

/-- Concatenation of the lines of a triple list, used to state that
grouping preserves the source order. -/
def flattenTriples : List Triple → List String
  | [] => []
  | t :: rest => t.link :: t.topic :: t.dateStr :: flattenTriples rest

/-- Non-blank stripped lines of the input content, source line 126. -/
def nonBlankLines (content : String) : List String :=
  ((pySplitLines content).map pyStrip).filter (fun l => l ≠ "")

/-- Object store of the bucket: a partial map from blob name to content. -/
def Store := String → Option String

/-- Effect on the store of the copy-then-delete at source lines 198 to
206: the destination receives the content of the original and the
original no longer exists. -/
def archiveMove (st : Store) (orig dest : String) : Store :=
  fun k => if k = orig then none else if k = dest then st orig else st k

/-- Diagnostic printed at source lines 134 to 136 when the line count is
not a multiple of three. -/
def badCountDiag (inputName : String) (n : Nat) : String :=
  ("Error: Input file \x27" ++ inputName ++ "\x27 contains ") ++ toString n ++
    (" lines. Expected a multiple of 3 lines per problem (link, topic, date). " ++
      "Please check the file format.")

/-- Model of os.path.basename over POSIX paths: the segment after the last
slash. -/
def baseName (s : String) : String :=
  String.mk ((s.toList.reverse.takeWhile (fun c => c ≠ '/')).reverse)

/-- Archive destination name built at source line 193: the configured
prefix, then the base name of the input blob with every occurrence of the
literal .txt deleted, an underscore, the timestamp, and .txt. -/
def processedBlobName (prefixStr inputName ts : String) : String :=
  prefixStr ++ pyRemove ".txt" (baseName inputName) ++ "_" ++ ts ++ ".txt"

/-- Wall-clock reading taken at source line 191. -/
structure ClockTime where
  year : Nat
  month : Nat
  day : Nat
  hour : Nat
  minute : Nat
  second : Nat
  deriving DecidableEq

/-- Model of strftime with the compact timestamp format at source line
191. -/
def formatCompact (c : ClockTime) : String :=
  padNum 4 c.year ++ padNum 2 c.month ++ padNum 2 c.day ++ "_" ++
    padNum 2 c.hour ++ padNum 2 c.minute ++ padNum 2 c.second

/-- Observable outcome of process_problems_from_gcs. -/
inductive ProcessOutcome where
  | noBucket
  | missingInput
  | emptyInput
  | badLineCount (n : Nat) (diag : String)
  | ran (r : PipeResult) (archived : Bool)
  deriving DecidableEq

/-- Rows passed to the sink during the run. -/
def ProcessOutcome.submittedRows : ProcessOutcome → List (List String)
  | .ran r _ => r.submitted
  | _ => []

/-- Rows the sink accepted during the run. -/
def ProcessOutcome.appendedRows : ProcessOutcome → List (List String)
  | .ran r _ => r.appended
  | _ => []

/-- Whether the archival step executed during the run. -/
def ProcessOutcome.didArchive : ProcessOutcome → Bool
  | .ran _ b => b
  | _ => false

/-- Outcome of one run together with the final state of the object store. -/
structure RunEffect where
  outcome : ProcessOutcome
  store : Store

/-- Model of process_problems_from_gcs, source lines 108 to 213. The
bucket-name check, the existence check, the emptiness check and the
divisibility check happen in source order; the loop result gates nothing,
because the archive condition at line 190 only tests that the batch held
at least one triple and that no exception escaped the loop. The timestamp
string is the formatted clock reading taken at line 191. -/
def runProcess (bucketSet : Bool) (st : Store) (inputName prefixStr ts : String)
    (resolve : String → String) (appendOk : Nat → Bool) : RunEffect :=
  if bucketSet then
    match st inputName with
    | none => ⟨.missingInput, st⟩
    | some content =>
      if (nonBlankLines content).length = 0 then ⟨.emptyInput, st⟩
      else if (nonBlankLines content).length % 3 ≠ 0 then
        ⟨.badLineCount (nonBlankLines content).length
          (badCountDiag inputName (nonBlankLines content).length), st⟩
      else if (runTriples resolve appendOk (groupTriples (nonBlankLines content)) 0).aborted = false ∧
          0 < (nonBlankLines content).length / 3 then
        ⟨.ran (runTriples resolve appendOk (groupTriples (nonBlankLines content)) 0) true,
          archiveMove st inputName (processedBlobName prefixStr inputName ts)⟩
      else ⟨.ran (runTriples resolve appendOk (groupTriples (nonBlankLines content)) 0) false, st⟩
  else ⟨.noBucket, st⟩

/-- Safety of a triple for scheduling: if its date string parses, all five
revision additions stay inside the representable date range. -/
def tripleSafeB (t : Triple) : Bool :=
  match parseDMY t.dateStr with
  | none => true
  | some d => decide ((addDaysN d 56).year ≤ 9999)

/-- Reading of the claim wording for the archive name: base name with the
extension stripped, that is, with the part from the last dot deleted. -/
def specStripExtension (s : String) : String :=
  if s.toList.contains '.' then
    String.mk (((s.toList.reverse.dropWhile (fun c => c ≠ '.')).drop 1).reverse)
  else s

/-- Archive destination name as the claim words it, for comparison with
the name the code builds. -/
def specArchiveName (prefixStr inputName ts : String) : String :=
  prefixStr ++ specStripExtension (baseName inputName) ++ "_" ++ ts ++ ".txt"

/-- Reading of the claim wording for the date format: exactly two-digit
day, two-digit month, four-digit year, hyphen separators, naming a valid
calendar date. -/
def specTwoDigitDMY (s : String) : Bool :=
  match s.toList.splitOn '-' with
  | [ds, ms, ys] =>
    ds.length = 2 && ds.all isAsciiDigit && ms.length = 2 && ms.all isAsciiDigit &&
      ys.length = 4 && ys.all isAsciiDigit &&
      1 ≤ digitsVal ds && 1 ≤ digitsVal ms && digitsVal ms ≤ 12 &&
      1 ≤ digitsVal ys && digitsVal ds ≤ daysInMonth (digitsVal ys) (digitsVal ms)
  | _ => false

/-- Response whose first candidate carries the given completion text. -/
def okTextResp (t : String) : GeminiResponse :=
  ⟨some [⟨some ⟨some [⟨some t⟩]⟩⟩]⟩

/-- Transitivity of the lexicographic date order. -/
theorem dateLt_trans {a b c : Date} (h1 : Date.lt a b) (h2 : Date.lt b c) :
    Date.lt a c := by
  unfold Date.lt at *; omega

/-- The calendar successor is strictly later in the lexicographic order. -/
theorem dateLt_nextDay (d : Date) : Date.lt d (nextDay d) := by
  unfold Date.lt nextDay
  split_ifs <;> simp

/-- The calendar successor never decreases the year. -/
theorem year_le_nextDay (d : Date) : d.year ≤ (nextDay d).year := by
  unfold nextDay
  split_ifs <;> simp

/-- Iterating the successor never decreases the year. -/
theorem year_addDaysN_le (d : Date) (m k : Nat) :
    (addDaysN d m).year ≤ (addDaysN d (m + k)).year := by
  induction k with
  | zero => exact Nat.le_refl _
  | succ k ih => exact Nat.le_trans ih (year_le_nextDay (addDaysN d (m + k)))

/-- Strict monotonicity of iterated successors in the lexicographic
order. -/
theorem dateLt_addDaysN_add (d : Date) (m k : Nat) :
    Date.lt (addDaysN d m) (addDaysN d (m + k + 1)) := by
  induction k with
  | zero => exact dateLt_nextDay (addDaysN d m)
  | succ k ih => exact dateLt_trans ih (dateLt_nextDay (addDaysN d (m + k + 1)))

/-- Strict monotonicity of iterated successors, stated with an order
hypothesis on the day counts. -/
theorem dateLt_addDaysN (d : Date) {m n : Nat} (h : m < n) :
    Date.lt (addDaysN d m) (addDaysN d n) := by
  obtain ⟨k, rfl⟩ := Nat.exists_eq_add_of_lt h
  exact dateLt_addDaysN_add d m k

/-- The timedelta addition succeeds exactly when the result stays in the
representable range. -/
theorem addDays_of_cap {d : Date} {n : Nat} (h : (addDaysN d n).year ≤ 9999) :
    addDays d n = some (addDaysN d n) := by
  unfold addDays; simp [h]

/-- When the largest offset stays in range, all five revision additions
succeed and the scheduler returns the five offset dates in order. -/
theorem scheduleDates_of_cap {d : Date} (h : (addDaysN d 56).year ≤ 9999) :
    scheduleDates d =
      some [addDaysN d 1, addDaysN d 4, addDaysN d 11, addDaysN d 26, addDaysN d 56] := by
  have h1 : (addDaysN d 1).year ≤ 9999 := Nat.le_trans (year_addDaysN_le d 1 55) h
  have h4 : (addDaysN d 4).year ≤ 9999 := Nat.le_trans (year_addDaysN_le d 4 52) h
  have h11 : (addDaysN d 11).year ≤ 9999 := Nat.le_trans (year_addDaysN_le d 11 45) h
  have h26 : (addDaysN d 26).year ≤ 9999 := Nat.le_trans (year_addDaysN_le d 26 30) h
  unfold scheduleDates
  rw [addDays_of_cap h1, addDays_of_cap h4, addDays_of_cap h11, addDays_of_cap h26,
    addDays_of_cap h]

/-- The appended rows are exactly the submitted rows selected by the sink
oracle at the positions where the append call was made. -/
theorem runTriples_appended (resolve : String → String) (appendOk : Nat → Bool)
    (ts : List Triple) (k : Nat) :
    (runTriples resolve appendOk ts k).appended =
      filterByIdx appendOk k (runTriples resolve appendOk ts k).submitted := by
  induction ts generalizing k with
  | nil => rfl
  | cons t rest ih =>
    cases hp : parseDMY t.dateStr with
    | none => simpa [runTriples, hp] using ih k
    | some d =>
      cases hs : scheduleDates d with
      | none => simp [runTriples, hp, hs, filterByIdx]
      | some revs =>
        cases hok : appendOk k <;>
          simp [runTriples, hp, hs, filterByIdx, hok, ih (k + 1)]

/-- Index-based selection yields a sublist. -/
theorem filterByIdx_sublist (ok : Nat → Bool) (k : Nat) (l : List α) :
    List.Sublist (filterByIdx ok k l) l := by
  induction l generalizing k with
  | nil => simp [filterByIdx]
  | cons a as ih =>
    unfold filterByIdx
    split_ifs
    · exact List.Sublist.cons₂ a (ih (k + 1))
    · exact List.Sublist.cons a (ih (k + 1))

/-- On a batch in which no parsed date can overflow the schedule, the loop
never aborts and submits exactly the rows of the triples whose date string
parses, in input order. -/
theorem runTriples_safe (resolve : String → String) (appendOk : Nat → Bool)
    (ts : List Triple) (k : Nat) (h : ∀ t ∈ ts, tripleSafeB t = true) :
    (runTriples resolve appendOk ts k).aborted = false ∧
    (runTriples resolve appendOk ts k).submitted = ts.filterMap (rowFor resolve) := by
  induction ts generalizing k with
  | nil => exact ⟨rfl, rfl⟩
  | cons t rest ih =>
    have ht := h t (List.mem_cons_self t rest)
    have hrest : ∀ x ∈ rest, tripleSafeB x = true :=
      fun x hx => h x (List.mem_cons_of_mem t hx)
    cases hp : parseDMY t.dateStr with
    | none =>
      have hrow : rowFor resolve t = none := by simp [rowFor, hp]
      constructor
      · simpa [runTriples, hp] using (ih k hrest).1
      · simpa [runTriples, hp, List.filterMap_cons, hrow] using (ih k hrest).2
    | some d =>
      have hcap : (addDaysN d 56).year ≤ 9999 := by
        unfold tripleSafeB at ht; rw [hp] at ht; exact of_decide_eq_true ht
      have hs := scheduleDates_of_cap hcap
      have hrow : rowFor resolve t =
          some (mkRow t.topic (resolve t.link) t.link d
            [addDaysN d 1, addDaysN d 4, addDaysN d 11, addDaysN d 26, addDaysN d 56]) := by
        simp [rowFor, hp, hs]
      constructor
      · simpa [runTriples, hp, hs] using (ih (k + 1) hrest).1
      · simpa [runTriples, hp, hs, List.filterMap_cons, hrow] using (ih (k + 1) hrest).2

/-- On a schedule-safe triple, no row is contributed exactly when the date
string fails to parse. -/
theorem rowFor_none_iff (resolve : String → String) (t : Triple)
    (ht : tripleSafeB t = true) :
    rowFor resolve t = none ↔ parseDMY t.dateStr = none := by
  cases hp : parseDMY t.dateStr with
  | none => simp [rowFor, hp]
  | some d =>
    have hcap : (addDaysN d 56).year ≤ 9999 := by
      unfold tripleSafeB at ht; rw [hp] at ht; exact of_decide_eq_true ht
    simp [rowFor, hp, scheduleDates_of_cap hcap]

/-- Grouping the lines into consecutive triples and flattening them back
is the identity on batches whose length is a multiple of three. -/
theorem flatten_group : ∀ (lines : List String), lines.length % 3 = 0 →
    flattenTriples (groupTriples lines) = lines
  | [], _ => rfl
  | [_], h => absurd h (by simp)
  | [_, _], h => absurd h (by simp)
  | a :: b :: c :: rest, h => by
    have hr : rest.length % 3 = 0 := by
      simp only [List.length_cons] at h; omega
    show a :: b :: c :: flattenTriples (groupTriples rest) = a :: b :: c :: rest
    rw [flatten_group rest hr]

/-- Value of the run when the input blob is absent. -/
theorem runProcess_none (st : Store) (inputName prefixStr ts : String)
    (resolve : String → String) (appendOk : Nat → Bool)
    (hst : st inputName = none) :
    runProcess true st inputName prefixStr ts resolve appendOk = ⟨.missingInput, st⟩ := by
  unfold runProcess
  rw [hst]
  rfl

/-- Value of the run once the input blob content is known, with the
branch structure exposed for case analysis. -/
theorem runProcess_some (st : Store) (inputName prefixStr ts content : String)
    (resolve : String → String) (appendOk : Nat → Bool)
    (hst : st inputName = some content) :
    runProcess true st inputName prefixStr ts resolve appendOk =
      (if (nonBlankLines content).length = 0 then ⟨.emptyInput, st⟩
       else if (nonBlankLines content).length % 3 ≠ 0 then
        ⟨.badLineCount (nonBlankLines content).length
          (badCountDiag inputName (nonBlankLines content).length), st⟩
       else if (runTriples resolve appendOk (groupTriples (nonBlankLines content)) 0).aborted = false ∧
          0 < (nonBlankLines content).length / 3 then
        ⟨.ran (runTriples resolve appendOk (groupTriples (nonBlankLines content)) 0) true,
          archiveMove st inputName (processedBlobName prefixStr inputName ts)⟩
       else ⟨.ran (runTriples resolve appendOk (groupTriples (nonBlankLines content)) 0) false, st⟩) := by
  unfold runProcess
  rw [hst]
  rfl

/-- Inversion of the run: the outcome reports an archived run only in the
branch that moves the input blob to the processed name. -/
theorem runProcess_archived (st : Store) (inputName prefixStr ts : String)
    (resolve : String → String) (appendOk : Nat → Bool) (r : PipeResult)
    (h : (runProcess true st inputName prefixStr ts resolve appendOk).outcome = .ran r true) :
    (runProcess true st inputName prefixStr ts resolve appendOk).store =
      archiveMove st inputName (processedBlobName prefixStr inputName ts) := by
  cases hst : st inputName with
  | none =>
    rw [runProcess_none st inputName prefixStr ts resolve appendOk hst] at h
    simp at h
  | some content =>
    rw [runProcess_some st inputName prefixStr ts content resolve appendOk hst] at h ⊢
    by_cases h0 : (nonBlankLines content).length = 0
    · rw [if_pos h0] at h; simp at h
    · rw [if_neg h0] at h ⊢
      by_cases h3 : (nonBlankLines content).length % 3 ≠ 0
      · rw [if_pos h3] at h; simp at h
      · rw [if_neg h3] at h ⊢
        by_cases ha :
            (runTriples resolve appendOk (groupTriples (nonBlankLines content)) 0).aborted = false ∧
              0 < (nonBlankLines content).length / 3
        · rw [if_pos ha]
        · rw [if_neg ha] at h; simp at h

/-- Claim C1: archival should run if and only if at least one row was
successfully appended. The code instead archives whenever the structurally
valid batch was non-empty and the loop finished: on a batch holding one
triple whose date string is unparsable, zero rows are submitted or
appended, yet the input blob is moved to the archive location. This
evaluates the model at that failing input. -/
theorem c1_archives_without_success :
    (runProcess true
        (fun k => if k = "problems.txt" then some "https://x\nArrays\n2024/01/01" else none)
        "problems.txt" "processed_problems/" "20250101_000000"
        (fun _ => "Name") (fun _ => true)).outcome.appendedRows = [] ∧
    (runProcess true
        (fun k => if k = "problems.txt" then some "https://x\nArrays\n2024/01/01" else none)
        "problems.txt" "processed_problems/" "20250101_000000"
        (fun _ => "Name") (fun _ => true)).outcome.submittedRows = [] ∧
    (runProcess true
        (fun k => if k = "problems.txt" then some "https://x\nArrays\n2024/01/01" else none)
        "problems.txt" "processed_problems/" "20250101_000000"
        (fun _ => "Name") (fun _ => true)).outcome.didArchive = true ∧
    (runProcess true
        (fun k => if k = "problems.txt" then some "https://x\nArrays\n2024/01/01" else none)
        "problems.txt" "processed_problems/" "20250101_000000"
        (fun _ => "Name") (fun _ => true)).store "problems.txt" = none ∧
    (runProcess true
        (fun k => if k = "problems.txt" then some "https://x\nArrays\n2024/01/01" else none)
        "problems.txt" "processed_problems/" "20250101_000000"
        (fun _ => "Name") (fun _ => true)).store
      "processed_problems/problems_20250101_000000.txt" =
      some "https://x\nArrays\n2024/01/01" := by decide

/-- Claim C2: for the single valid triple with the two-sum link, topic
Arrays, date 01-01-2024 and a resolver returning Two Sum, the row
submitted to the tracker sink is exactly the 9-element list of the claim. -/
theorem c2_single_triple_row :
    (runTriples (fun _ => "Two Sum") (fun _ => true)
        [⟨"https://leetcode.com/problems/two-sum/", "Arrays", "01-01-2024"⟩] 0).submitted =
      [["Arrays", "Two Sum", "https://leetcode.com/problems/two-sum/", "2024-01-01",
        "2024-01-02", "2024-01-05", "2024-01-12", "2024-01-27", "2024-02-26"]] := by decide

/-- Claim C3 counterexample: the last representable date is a valid
calendar date on which the scheduler fails, because every revision
addition overflows the representable range, so the scheduler is not total
on valid dates. -/
theorem c3_overflow_counterexample :
    (⟨9999, 12, 31⟩ : Date).valid ∧ scheduleDates ⟨9999, 12, 31⟩ = none := by decide

/-- Claim C3 as amended: for every valid date whose 56-day successor still
lies within the representable year range, the scheduler returns exactly
the five dates at offsets 1, 4, 11, 26 and 56 days, in strictly
increasing order. -/
theorem c3_schedule_offsets (d : Date) (_hv : d.valid)
    (hcap : (addDaysN d 56).year ≤ 9999) :
    scheduleDates d =
      some [addDaysN d 1, addDaysN d 4, addDaysN d 11, addDaysN d 26, addDaysN d 56] ∧
    Date.lt d (addDaysN d 1) ∧ Date.lt (addDaysN d 1) (addDaysN d 4) ∧
    Date.lt (addDaysN d 4) (addDaysN d 11) ∧ Date.lt (addDaysN d 11) (addDaysN d 26) ∧
    Date.lt (addDaysN d 26) (addDaysN d 56) := by
  refine ⟨scheduleDates_of_cap hcap, ?_, ?_, ?_, ?_, ?_⟩
  · exact @dateLt_addDaysN d 0 1 (by omega)
  · exact dateLt_addDaysN d (by omega)
  · exact dateLt_addDaysN d (by omega)
  · exact dateLt_addDaysN d (by omega)
  · exact dateLt_addDaysN d (by omega)

/-- Witness for the amended claim C3, at the first day of 2024. -/
theorem c3_schedule_offsets_witness :
    (⟨2024, 1, 1⟩ : Date).valid ∧ (addDaysN ⟨2024, 1, 1⟩ 56).year ≤ 9999 ∧
    scheduleDates ⟨2024, 1, 1⟩ =
      some [addDaysN ⟨2024, 1, 1⟩ 1, addDaysN ⟨2024, 1, 1⟩ 4, addDaysN ⟨2024, 1, 1⟩ 11,
        addDaysN ⟨2024, 1, 1⟩ 26, addDaysN ⟨2024, 1, 1⟩ 56] :=
  ⟨by decide, by decide, (c3_schedule_offsets ⟨2024, 1, 1⟩ (by decide) (by decide)).1⟩

/-- Claim C4 counterexample: a well-formed response whose completion text
is a bare fence marker cleans to the empty string, and the resolver
returns that empty string, which is none of the three sentinels; so the
resolver can return an empty problem name. -/
theorem c4_empty_counterexample :
    getProblemName (.ok (okTextResp "```")) = "" ∧
    FETCH_ERROR_SENTINEL ≠ "" ∧ UNKNOWN_PROBLEM_SENTINEL ≠ "" ∧
    GENERIC_ERROR_SENTINEL ≠ "" := by decide

/-- Claim C4 as amended: when the response carries a completion text the
resolver returns exactly the cleaned text, even when that is empty; only
when no completion text is available does it return one of the three
sentinels, each of which is non-empty. -/
theorem c4_cleaned_or_sentinel (r : ApiResult) :
    (∀ t, completionText r = some t → getProblemName r = cleanName t) ∧
    (completionText r = none →
      (getProblemName r = FETCH_ERROR_SENTINEL ∨ getProblemName r = UNKNOWN_PROBLEM_SENTINEL ∨
        getProblemName r = GENERIC_ERROR_SENTINEL) ∧
      getProblemName r ≠ "") := by
  cases r with
  | transportError =>
    exact ⟨fun t ht => by simp [completionText] at ht, fun _ => ⟨Or.inl rfl, by decide⟩⟩
  | jsonDecodeError =>
    exact ⟨fun t ht => by simp [completionText] at ht, fun _ => ⟨Or.inl rfl, by decide⟩⟩
  | otherError =>
    exact ⟨fun t ht => by simp [completionText] at ht, fun _ => ⟨Or.inr (Or.inr rfl), by decide⟩⟩
  | ok resp =>
    cases hfp : firstPart resp with
    | none =>
      have hval : getProblemName (.ok resp) = UNKNOWN_PROBLEM_SENTINEL := by
        simp [getProblemName, hfp]
      refine ⟨fun t ht => ?_, fun _ => ⟨Or.inr (Or.inl hval), ?_⟩⟩
      · simp [completionText, hfp] at ht
      · rw [hval]; decide
    | some p =>
      cases hpt : p.text with
      | none =>
        have hval : getProblemName (.ok resp) = GENERIC_ERROR_SENTINEL := by
          simp [getProblemName, hfp, hpt]
        refine ⟨fun t ht => ?_, fun _ => ⟨Or.inr (Or.inr hval), ?_⟩⟩
        · simp [completionText, hfp, hpt] at ht
        · rw [hval]; decide
      | some t0 =>
        have hval : getProblemName (.ok resp) = cleanName t0 := by
          simp [getProblemName, hfp, hpt]
        have hct : completionText (.ok resp) = some t0 := by
          simp [completionText, hfp, hpt]
        refine ⟨fun t ht => ?_, fun hn => ?_⟩
        · rw [hct] at ht
          injection ht with h0
          rw [← h0]
          exact hval
        · rw [hct] at hn; simp at hn

/-- Witness for the amended claim C4: a concrete response with a fence
text yields the cleaned empty text, and a transport failure yields a
non-empty sentinel. -/
theorem c4_cleaned_or_sentinel_witness :
    getProblemName (.ok (okTextResp "```")) = cleanName "```" ∧
    getProblemName ApiResult.transportError ≠ "" :=
  ⟨(c4_cleaned_or_sentinel (.ok (okTextResp "```"))).1 "```" (by decide),
   ((c4_cleaned_or_sentinel ApiResult.transportError).2 (by decide)).2⟩

/-- Claim C5: the resolver is a total function of the request outcome; a
transport failure and a non-JSON body map to the fetch sentinel, a
response lacking the completion shape maps to the distinct unknown
sentinel, any other unexpected failure maps to the distinct generic
sentinel, and whatever string the resolver produces, the pipeline still
constructs and submits the row carrying it, and appends it when the sink
accepts. -/
theorem c5_failure_sentinels :
    getProblemName ApiResult.transportError = FETCH_ERROR_SENTINEL ∧
    getProblemName ApiResult.jsonDecodeError = FETCH_ERROR_SENTINEL ∧
    (∀ resp : GeminiResponse, firstPart resp = none →
      getProblemName (.ok resp) = UNKNOWN_PROBLEM_SENTINEL) ∧
    getProblemName ApiResult.otherError = GENERIC_ERROR_SENTINEL ∧
    FETCH_ERROR_SENTINEL ≠ UNKNOWN_PROBLEM_SENTINEL ∧
    FETCH_ERROR_SENTINEL ≠ GENERIC_ERROR_SENTINEL ∧
    UNKNOWN_PROBLEM_SENTINEL ≠ GENERIC_ERROR_SENTINEL ∧
    (∀ (name : String) (appendOk : Nat → Bool) (t : Triple) (d : Date),
      parseDMY t.dateStr = some d → (addDaysN d 56).year ≤ 9999 →
      (runTriples (fun _ => name) appendOk [t] 0).submitted =
        [mkRow t.topic name t.link d
          [addDaysN d 1, addDaysN d 4, addDaysN d 11, addDaysN d 26, addDaysN d 56]] ∧
      (appendOk 0 = true →
        (runTriples (fun _ => name) appendOk [t] 0).appended =
          [mkRow t.topic name t.link d
            [addDaysN d 1, addDaysN d 4, addDaysN d 11, addDaysN d 26, addDaysN d 56]])) := by
  refine ⟨rfl, rfl, ?_, rfl, by decide, by decide, by decide, ?_⟩
  · intro resp hresp
    simp [getProblemName, hresp]
  · intro name appendOk t d hp hcap
    have hs := scheduleDates_of_cap hcap
    constructor
    · simp [runTriples, hp, hs]
    · intro hok
      simp [runTriples, hp, hs, hok]

/-- Witness for claim C5: a response with no candidates yields the unknown
sentinel, and a run whose resolver returns the fetch sentinel still
appends the row carrying that sentinel. -/
theorem c5_failure_sentinels_witness :
    getProblemName (.ok ⟨none⟩) = UNKNOWN_PROBLEM_SENTINEL ∧
    (runTriples (fun _ => FETCH_ERROR_SENTINEL) (fun _ => true)
        [⟨"https://x", "T", "01-01-2024"⟩] 0).appended =
      [mkRow "T" FETCH_ERROR_SENTINEL "https://x" ⟨2024, 1, 1⟩
        [addDaysN ⟨2024, 1, 1⟩ 1, addDaysN ⟨2024, 1, 1⟩ 4, addDaysN ⟨2024, 1, 1⟩ 11,
          addDaysN ⟨2024, 1, 1⟩ 26, addDaysN ⟨2024, 1, 1⟩ 56]] :=
  ⟨c5_failure_sentinels.2.2.1 ⟨none⟩ rfl,
   (c5_failure_sentinels.2.2.2.2.2.2.2 FETCH_ERROR_SENTINEL (fun _ => true)
      ⟨"https://x", "T", "01-01-2024"⟩ ⟨2024, 1, 1⟩ (by decide) (by decide)).2 rfl⟩

/-- Claim C6 counterexample: the date string with one-digit day and month
is not in the two-digit day-month-year format the claim fixes, yet the
code parses it and the triple is not skipped: it contributes a full row. -/
theorem c6_one_digit_counterexample :
    specTwoDigitDMY "1-1-2024" = false ∧
    (runTriples (fun _ => "N") (fun _ => true) [⟨"https://x", "T", "1-1-2024"⟩] 0).submitted =
      [["T", "N", "https://x", "2024-01-01", "2024-01-02", "2024-01-05", "2024-01-12",
        "2024-01-27", "2024-02-26"]] := by decide

/-- Claim C6 as amended: on a batch in which no parsed date can overflow
the schedule, the loop never aborts, the submitted rows are exactly the
rows of the triples whose date string parses under the strptime semantics
of the code, in order, and a triple contributes no row exactly when its
date string fails that parse. -/
theorem c6_skip_iff_parse_failure (resolve : String → String) (appendOk : Nat → Bool)
    (ts : List Triple) (h : ∀ t ∈ ts, tripleSafeB t = true) :
    (runTriples resolve appendOk ts 0).aborted = false ∧
    (runTriples resolve appendOk ts 0).submitted = ts.filterMap (rowFor resolve) ∧
    ∀ t ∈ ts, (rowFor resolve t = none ↔ parseDMY t.dateStr = none) :=
  ⟨(runTriples_safe resolve appendOk ts 0 h).1,
   (runTriples_safe resolve appendOk ts 0 h).2,
   fun t ht => rowFor_none_iff resolve t (h t ht)⟩

/-- Witness for the amended claim C6: a batch with one unparsable and one
parsable date submits exactly the row of the parsable triple. -/
theorem c6_skip_iff_parse_failure_witness :
    (∀ t ∈ ([⟨"https://a", "T1", "2024/01/01"⟩, ⟨"https://b", "T2", "01-01-2024"⟩] : List Triple),
      tripleSafeB t = true) ∧
    (runTriples (fun _ => "N") (fun _ => true)
        [⟨"https://a", "T1", "2024/01/01"⟩, ⟨"https://b", "T2", "01-01-2024"⟩] 0).submitted =
      ([⟨"https://a", "T1", "2024/01/01"⟩, ⟨"https://b", "T2", "01-01-2024"⟩] : List Triple).filterMap
        (rowFor (fun _ => "N")) :=
  ⟨by decide,
   (c6_skip_iff_parse_failure (fun _ => "N") (fun _ => true)
      [⟨"https://a", "T1", "2024/01/01"⟩, ⟨"https://b", "T2", "01-01-2024"⟩] (by decide)).2.1⟩

/-- Claim C7: on a non-empty batch whose non-blank line count is not
divisible by three, the run returns before processing any triple, leaving
the store untouched, and the diagnostic string contains the decimal
rendering of the actual line count; on an all-blank or empty input the
run is likewise a no-op with the store untouched. -/
theorem c7_structural_abort (st : Store) (inputName prefixStr ts content : String)
    (resolve : String → String) (appendOk : Nat → Bool)
    (hin : st inputName = some content) :
    ((nonBlankLines content).length ≠ 0 → (nonBlankLines content).length % 3 ≠ 0 →
      runProcess true st inputName prefixStr ts resolve appendOk =
        ⟨.badLineCount (nonBlankLines content).length
          (badCountDiag inputName (nonBlankLines content).length), st⟩ ∧
      (runProcess true st inputName prefixStr ts resolve appendOk).outcome.submittedRows = [] ∧
      (runProcess true st inputName prefixStr ts resolve appendOk).outcome.didArchive = false ∧
      (∃ s1 s2, badCountDiag inputName (nonBlankLines content).length =
        s1 ++ toString (nonBlankLines content).length ++ s2)) ∧
    ((nonBlankLines content).length = 0 →
      runProcess true st inputName prefixStr ts resolve appendOk = ⟨.emptyInput, st⟩) := by
  constructor
  · intro h0 h3
    refine ⟨?_, ?_, ?_, ⟨_, _, rfl⟩⟩
    · rw [runProcess_some st inputName prefixStr ts content resolve appendOk hin,
        if_neg h0, if_pos h3]
    · rw [runProcess_some st inputName prefixStr ts content resolve appendOk hin,
        if_neg h0, if_pos h3]
      rfl
    · rw [runProcess_some st inputName prefixStr ts content resolve appendOk hin,
        if_neg h0, if_pos h3]
      rfl
  · intro h0
    rw [runProcess_some st inputName prefixStr ts content resolve appendOk hin, if_pos h0]

/-- Witness for claim C7: a two-line input aborts with the bad-count
outcome and an unchanged store. -/
theorem c7_structural_abort_witness :
    ((fun k => if k = "problems.txt" then some "a\nb" else none) : Store) "problems.txt" =
      some "a\nb" ∧
    (nonBlankLines "a\nb").length ≠ 0 ∧ (nonBlankLines "a\nb").length % 3 ≠ 0 ∧
    runProcess true (fun k => if k = "problems.txt" then some "a\nb" else none) "problems.txt"
        "processed_problems/" "20250101_000000" (fun _ => "N") (fun _ => true) =
      ⟨.badLineCount (nonBlankLines "a\nb").length
        (badCountDiag "problems.txt" (nonBlankLines "a\nb").length),
        fun k => if k = "problems.txt" then some "a\nb" else none⟩ :=
  ⟨by decide, by decide, by decide,
   ((c7_structural_abort (fun k => if k = "problems.txt" then some "a\nb" else none)
      "problems.txt" "processed_problems/" "20250101_000000" "a\nb" (fun _ => "N")
      (fun _ => true) (by decide)).1 (by decide) (by decide)).1⟩

/-- Claim C8 counterexample: in an archived run whose input blob is named
data.csv, the destination keeps the full base name including the csv
extension, because the code only deletes occurrences of the literal txt
extension; the name the claim prescribes, with the extension stripped,
is not where the content lands. -/
theorem c8_extension_counterexample :
    (runProcess true (fun k => if k = "data.csv" then some "https://x\nT\n01-01-2024" else none)
        "data.csv" "processed_problems/" "20250101_000000"
        (fun _ => "N") (fun _ => true)).outcome.didArchive = true ∧
    processedBlobName "processed_problems/" "data.csv" "20250101_000000" =
      "processed_problems/data.csv_20250101_000000.txt" ∧
    specArchiveName "processed_problems/" "data.csv" "20250101_000000" =
      "processed_problems/data_20250101_000000.txt" ∧
    processedBlobName "processed_problems/" "data.csv" "20250101_000000" ≠
      specArchiveName "processed_problems/" "data.csv" "20250101_000000" ∧
    (runProcess true (fun k => if k = "data.csv" then some "https://x\nT\n01-01-2024" else none)
        "data.csv" "processed_problems/" "20250101_000000"
        (fun _ => "N") (fun _ => true)).store "processed_problems/data.csv_20250101_000000.txt" =
      some "https://x\nT\n01-01-2024" ∧
    (runProcess true (fun k => if k = "data.csv" then some "https://x\nT\n01-01-2024" else none)
        "data.csv" "processed_problems/" "20250101_000000"
        (fun _ => "N") (fun _ => true)).store "processed_problems/data_20250101_000000.txt" =
      none := by decide

/-- Claim C8 as amended: in every archived run the final store is the move
of the input blob to the destination name built from the fixed prefix,
the base name with every occurrence of the literal txt extension deleted,
an underscore, the compact timestamp, and the txt extension; the original
location no longer exists afterwards, and when the destination differs
from the origin it holds the original content. -/
theorem c8_archive_move_naming (st : Store) (inputName prefixStr : String) (ct : ClockTime)
    (resolve : String → String) (appendOk : Nat → Bool) (r : PipeResult)
    (h : (runProcess true st inputName prefixStr (formatCompact ct) resolve appendOk).outcome =
      .ran r true) :
    (runProcess true st inputName prefixStr (formatCompact ct) resolve appendOk).store =
      archiveMove st inputName (processedBlobName prefixStr inputName (formatCompact ct)) ∧
    (runProcess true st inputName prefixStr (formatCompact ct) resolve appendOk).store
      inputName = none ∧
    (processedBlobName prefixStr inputName (formatCompact ct) ≠ inputName →
      (runProcess true st inputName prefixStr (formatCompact ct) resolve appendOk).store
        (processedBlobName prefixStr inputName (formatCompact ct)) = st inputName) ∧
    processedBlobName prefixStr inputName (formatCompact ct) =
      prefixStr ++ pyRemove ".txt" (baseName inputName) ++ "_" ++ formatCompact ct ++ ".txt" := by
  have hs := runProcess_archived st inputName prefixStr (formatCompact ct) resolve appendOk r h
  refine ⟨hs, ?_, ?_, rfl⟩
  · rw [hs]; simp [archiveMove]
  · intro hne; rw [hs]; simp [archiveMove, hne]

/-- Witness for the amended claim C8: a concrete archived run removes the
input blob and places its content at the processed name. -/
theorem c8_archive_move_naming_witness :
    (runProcess true (fun k => if k = "problems.txt" then some "https://x\nT\n01-01-2024" else none)
        "problems.txt" "processed_problems/" (formatCompact ⟨2025, 1, 1, 0, 0, 0⟩)
        (fun _ => "N") (fun _ => true)).store "problems.txt" = none ∧
    (runProcess true (fun k => if k = "problems.txt" then some "https://x\nT\n01-01-2024" else none)
        "problems.txt" "processed_problems/" (formatCompact ⟨2025, 1, 1, 0, 0, 0⟩)
        (fun _ => "N") (fun _ => true)).store
      (processedBlobName "processed_problems/" "problems.txt" (formatCompact ⟨2025, 1, 1, 0, 0, 0⟩)) =
      some "https://x\nT\n01-01-2024" :=
  ⟨(c8_archive_move_naming
      (fun k => if k = "problems.txt" then some "https://x\nT\n01-01-2024" else none)
      "problems.txt" "processed_problems/" ⟨2025, 1, 1, 0, 0, 0⟩ (fun _ => "N") (fun _ => true)
      ⟨[["T", "N", "https://x", "2024-01-01", "2024-01-02", "2024-01-05", "2024-01-12",
          "2024-01-27", "2024-02-26"]],
        [["T", "N", "https://x", "2024-01-01", "2024-01-02", "2024-01-05", "2024-01-12",
          "2024-01-27", "2024-02-26"]], false⟩ (by decide)).2.1,
   (c8_archive_move_naming
      (fun k => if k = "problems.txt" then some "https://x\nT\n01-01-2024" else none)
      "problems.txt" "processed_problems/" ⟨2025, 1, 1, 0, 0, 0⟩ (fun _ => "N") (fun _ => true)
      ⟨[["T", "N", "https://x", "2024-01-01", "2024-01-02", "2024-01-05", "2024-01-12",
          "2024-01-27", "2024-02-26"]],
        [["T", "N", "https://x", "2024-01-01", "2024-01-02", "2024-01-05", "2024-01-12",
          "2024-01-27", "2024-02-26"]], false⟩ (by decide)).2.2.1 (by decide)⟩

/-- Claim C9: the non-blank lines are grouped into consecutive triples in
source order, the submitted rows are exactly the rows of the non-skipped
triples in the same order, and the appended rows are the submitted rows
selected in order by the sink oracle, hence an order-preserving sublist
with no reordering and no deduplication. -/
theorem c9_order_preserved (resolve : String → String) (appendOk : Nat → Bool)
    (lines : List String) (h3 : lines.length % 3 = 0)
    (h : ∀ t ∈ groupTriples lines, tripleSafeB t = true) :
    flattenTriples (groupTriples lines) = lines ∧
    (runTriples resolve appendOk (groupTriples lines) 0).submitted =
      (groupTriples lines).filterMap (rowFor resolve) ∧
    (runTriples resolve appendOk (groupTriples lines) 0).appended =
      filterByIdx appendOk 0 ((groupTriples lines).filterMap (rowFor resolve)) ∧
    List.Sublist ((runTriples resolve appendOk (groupTriples lines) 0).appended)
      ((groupTriples lines).filterMap (rowFor resolve)) := by
  have hsafe := runTriples_safe resolve appendOk (groupTriples lines) 0 h
  have happ := runTriples_appended resolve appendOk (groupTriples lines) 0
  refine ⟨flatten_group lines h3, hsafe.2, ?_, ?_⟩
  · rw [happ, hsafe.2]
  · rw [happ, hsafe.2]
    exact filterByIdx_sublist appendOk 0 _
/-- Witness for claim C9, on a six-line batch with one unparsable date. -/
theorem c9_order_preserved_witness :
    (["https://a", "T1", "01-01-2024", "https://b", "T2", "2024/01/01"].length % 3 = 0) ∧
    (∀ t ∈ groupTriples ["https://a", "T1", "01-01-2024", "https://b", "T2", "2024/01/01"],
      tripleSafeB t = true) ∧
    flattenTriples (groupTriples ["https://a", "T1", "01-01-2024", "https://b", "T2", "2024/01/01"]) =
      ["https://a", "T1", "01-01-2024", "https://b", "T2", "2024/01/01"] :=
  ⟨by decide, by decide,
   (c9_order_preserved (fun _ => "N") (fun _ => true)
      ["https://a", "T1", "01-01-2024", "https://b", "T2", "2024/01/01"]
      (by decide) (by decide)).1⟩

/-- Claim C10: the cleaning pass deletes the fence marker, the lowercase
word json and the label anywhere in the completion text, not only as a
leading fence or label; in particular a successful response whose genuine
title contains the lowercase word json is stored with that word removed,
differing from the title. -/
theorem c10_clean_deletes_everywhere :
    getProblemName (.ok (okTextResp "Parse json Strings")) = "Parse  Strings" ∧
    "Parse  Strings" ≠ "Parse json Strings" ∧
    cleanName "Mid ``` fence" = "Mid  fence" ∧
    cleanName "X Problem Name: Y" = "X  Y" := by decide

end DsaTracker
